import Mathlib

/-!
A shallow embedding of the rsocket-cpp connection state machine
(rsocket/statemachine/RSocketStateMachine.cpp) and of the earlier
ConnectionAutomaton (src/ConnectionAutomaton.cpp), together with the
resume-manager contract they rely on.  Every operation is modelled as a pure
function from a machine state to a new state plus a trace of observable
events (callbacks invoked, frames handed to the transport, stream
notifications).  The byte-level codec is external to the core (spec section 6),
so frames are modelled as already-parsed structures carrying the fields the
state machine inspects, plus an abstract serialized length.
-/

namespace RSocket

/-- Connection role, ReactiveSocketMode in the source. -/
inductive Mode
  | CLIENT
  | SERVER
deriving DecidableEq

/-- Wire frame kinds (FrameType).  UNKNOWN code stands for any value of the
6-bit kind field outside the defined enumeration; such values land in the
default branches of the dispatch switches in the source. -/
inductive FrameType
  | RESERVED
  | SETUP
  | LEASE
  | KEEPALIVE
  | REQUEST_RESPONSE
  | REQUEST_FNF
  | REQUEST_STREAM
  | REQUEST_CHANNEL
  | REQUEST_N
  | CANCEL
  | PAYLOAD
  | ERROR
  | METADATA_PUSH
  | RESUME
  | RESUME_OK
  | EXT
  | UNKNOWN (code : Nat)
deriving DecidableEq

/-- Error codes carried by ERROR frames (ErrorCode in the source). -/
inductive ErrorCode
  | RESERVED_EC
  | INVALID_SETUP
  | UNSUPPORTED_SETUP
  | REJECTED_SETUP
  | REJECTED_RESUME
  | CONNECTION_ERROR
  | APPLICATION_ERROR
  | REJECTED
  | CANCELED
  | INVALID
deriving DecidableEq

/-- StreamCompletionSignal from the source. -/
inductive StreamCompletionSignal
  | COMPLETE
  | CANCEL
  | APPLICATION_ERROR
  | ERROR
  | INVALID_SETUP
  | UNSUPPORTED_SETUP
  | REJECTED_SETUP
  | CONNECTION_ERROR
  | CONNECTION_END
  | SOCKET_CLOSED
deriving DecidableEq

/-- A frame as the state machine sees it: the peeked kind and stream id, the
serialized length (used by the resume position counters) and the deserialized
fields the connection-level handlers inspect.  autodetectOk models whether
FrameSerializer.createAutodetectedSerializer succeeds on the frame bytes
(external codec contract, spec section 6). -/
structure Frame where
  kind : FrameType
  streamId : Option Nat
  length : Nat
  respondFlag : Bool
  position : Nat
  errorCode : ErrorCode
  message : String
  autodetectOk : Bool
deriving DecidableEq

/-- Modelled from the spec: Frame_ERROR.connectionError (framing/Frame.h, not
under src) constructs a stream-0 ERROR frame carrying ErrorCode CONNECTION_ERROR
and the message as payload data; the closeWithError switch in
RSocketStateMachine.cpp documents that this helper produces a plain
CONNECTION_ERROR code.  The serialized length is abstracted as the message
length. -/
def Frame.connectionError (msg : String) : Frame :=
  { kind := FrameType.ERROR
    streamId := some 0
    length := msg.length
    respondFlag := false
    position := 0
    errorCode := ErrorCode.CONNECTION_ERROR
    message := msg
    autodetectOk := true }

/-- Modelled from the spec: the resumable frame kinds tracked by the resume
manager (spec section 4.3: all stream frames are resumable, the connection
control frames are not; InMemResumeManager.cpp is not under src). -/
def isResumableKind : FrameType → Bool
  | FrameType.REQUEST_RESPONSE => true
  | FrameType.REQUEST_FNF => true
  | FrameType.REQUEST_STREAM => true
  | FrameType.REQUEST_CHANNEL => true
  | FrameType.REQUEST_N => true
  | FrameType.CANCEL => true
  | FrameType.PAYLOAD => true
  | FrameType.ERROR => true
  | _ => false

/-- One cached outbound frame: the sent position after its bytes, its stream
id, kind and serialized length (spec section 4.3). -/
structure CacheEntry where
  endPos : Nat
  streamId : Option Nat
  kind : FrameType
  length : Nat
deriving DecidableEq

/-- Modelled from the spec: the resume manager state (spec section 4.3;
InMemResumeManager.cpp is not under src).  impliedPos counts received
resumable bytes, sentPos counts sent resumable bytes, firstSentPos is the
first position still cached, cache is the ring of outbound frames and
closedStreams records the per-stream bookkeeping drops. -/
structure ResumeManager where
  impliedPos : Nat
  sentPos : Nat
  firstSentPos : Nat
  cache : List CacheEntry
  closedStreams : List Nat
deriving DecidableEq

/-- Modelled from the spec: advance the implied position by the serialized
length of each resumable inbound frame. -/
def ResumeManager.trackReceivedFrame (rm : ResumeManager) (f : Frame) : ResumeManager :=
  if isResumableKind f.kind then { rm with impliedPos := rm.impliedPos + f.length }
  else rm

/-- Modelled from the spec: for resumable kinds, append the frame to the cache
and advance the sent position by its length. -/
def ResumeManager.trackSentFrame (rm : ResumeManager) (f : Frame) : ResumeManager :=
  if isResumableKind f.kind then
    { rm with
      sentPos := rm.sentPos + f.length
      cache := rm.cache ++
        [{ endPos := rm.sentPos + f.length
           streamId := f.streamId
           kind := f.kind
           length := f.length }] }
  else rm

/-- Modelled from the spec: drop cached frames whose end position is at most
the acknowledged position; the first position never decreases. -/
def ResumeManager.resetUpToPosition (rm : ResumeManager) (pos : Nat) : ResumeManager :=
  if pos ≤ rm.firstSentPos then rm
  else
    { rm with
      firstSentPos := pos
      cache := rm.cache.filter fun e => decide (pos < e.endPos) }

/-- Modelled from the spec: a position is available iff it lies between the
first still-cached position and the current sent position. -/
def ResumeManager.isPositionAvailable (rm : ResumeManager) (pos : Nat) : Bool :=
  decide (rm.firstSentPos ≤ pos) && decide (pos ≤ rm.sentPos)

/-- Modelled from the spec: on_stream_closed drops per-stream bookkeeping only;
cached frames remain. -/
def ResumeManager.onStreamClosed (rm : ResumeManager) (sid : Nat) : ResumeManager :=
  { rm with closedStreams := rm.closedStreams ++ [sid] }

/-- Observable effects of the connection state machine: callbacks invoked on
connection events and resume callbacks, frames handed to the frame transport,
keepalive timer operations and per-stream notifications. -/
inductive Event
  | onClosed
  | onDisconnected
  | onStreamsPaused
  | onStreamsResumed
  | onResumeOk
  | onResumeError
  | sentFrame (f : Frame)
  | transportClosedWithError
  | transportClosedClean
  | keepaliveStopped
  | keepaliveStarted
  | keepaliveReceived
  | metadataPushDelivered
  | streamRemoved (sid : Nat)
  | resumeManagerStreamClosed (sid : Nat)
  | streamEnded (sid : Nat) (sig : StreamCompletionSignal)
  | deliveredRequestN (sid : Nat)
  | deliveredCancel (sid : Nat)
  | deliveredPayload (sid : Nat)
  | deliveredError (sid : Nat)
  | responderCreated (sid : Nat) (k : FrameType)
  | fnfDelivered (sid : Nat)
  | replayedFromPosition (pos : Nat)
deriving DecidableEq

/-- True exactly for the on_closed callback event. -/
def isOnClosedEvent : Event → Bool
  | Event.onClosed => true
  | _ => false

/-- Number of on_closed callbacks in a trace. -/
def countOnClosed (evs : List Event) : Nat :=
  (evs.filter isOnClosedEvent).length

/-- True for events that deliver an inbound frame to a stream automaton or
create a responder stream from one. -/
def isStreamDelivery : Event → Bool
  | Event.deliveredRequestN _ => true
  | Event.deliveredCancel _ => true
  | Event.deliveredPayload _ => true
  | Event.deliveredError _ => true
  | Event.responderCreated _ _ => true
  | Event.fnfDelivered _ => true
  | _ => false

/-- The state of RSocketStateMachine.  hasTransport models
frameTransport_ being non-null (isDisconnectedOrClosed is its negation),
resumeCallbackPending models resumeCallback_ being non-null (the client is
awaiting RESUME_OK), hasConnectionEvents models connectionEvents_ being
non-null (close moves it out), streams_ is the key set of the streams map and
pendingOutput is streamState_.outputFrames_. -/
structure StateMachine where
  mode : Mode
  isClosed_ : Bool
  hasTransport : Bool
  resumeCallbackPending : Bool
  isResumable_ : Bool
  remoteResumeable_ : Bool
  hasSerializer : Bool
  versionMajor : Nat
  versionMinor : Nat
  streams_ : List Nat
  lastPeerStreamId : Nat
  pendingOutput : List Frame
  rm : ResumeManager
  hasKeepaliveTimer : Bool
  keepaliveRunning : Bool
  hasConnectionEvents : Bool
deriving DecidableEq

/-- RSocketStateMachine.isDisconnectedOrClosed: the transport pointer is null. -/
def isDisconnectedOrClosed (s : StateMachine) : Bool :=
  !s.hasTransport

/-- RSocketStateMachine.isClosed. -/
def isClosed (s : StateMachine) : Bool :=
  s.isClosed_

/-- RSocketStateMachine.closeFrameTransport: no-op when already disconnected
or closed; otherwise stop the keepalive timer, fail a pending resume callback,
close the transport (with error iff the signal is CONNECTION_ERROR) and null
the transport pointer. -/
def closeFrameTransport (sig : StreamCompletionSignal) (s : StateMachine) :
    StateMachine × List Event :=
  if isDisconnectedOrClosed s then (s, [])
  else
    let evKeep : List Event :=
      if s.hasKeepaliveTimer then [Event.keepaliveStopped] else []
    let evResume : List Event :=
      if s.resumeCallbackPending then [Event.onResumeError] else []
    let evClose : List Event :=
      if sig = StreamCompletionSignal.CONNECTION_ERROR then
        [Event.transportClosedWithError]
      else [Event.transportClosedClean]
    ({ s with
        hasTransport := false
        resumeCallbackPending := false
        keepaliveRunning := if s.hasKeepaliveTimer then false else s.keepaliveRunning },
     evKeep ++ evResume ++ evClose)

/-- The trace produced by RSocketStateMachine.endStreamInternal for one live
stream: notify the resume manager, remove the map entry, then deliver the
terminal signal to the automaton (in that order). -/
def endStreamEvents (sig : StreamCompletionSignal) (sid : Nat) : List Event :=
  [Event.resumeManagerStreamClosed sid, Event.streamRemoved sid,
   Event.streamEnded sid sig]

/-- The loop body of RSocketStateMachine.closeStreams: repeatedly end the
first stream of the map until the map is empty. -/
def closeStreamsAux (sig : StreamCompletionSignal) :
    List Nat → ResumeManager → ResumeManager × List Event
  | [], rm => (rm, [])
  | sid :: rest, rm =>
    let step := closeStreamsAux sig rest (rm.onStreamClosed sid)
    (step.1, endStreamEvents sig sid ++ step.2)

/-- RSocketStateMachine.closeStreams. -/
def closeStreams (sig : StreamCompletionSignal) (s : StateMachine) :
    StateMachine × List Event :=
  let p := closeStreamsAux sig s.streams_ s.rm
  ({ s with streams_ := [], rm := p.1 }, p.2)

/-- RSocketStateMachine.close: no-op when already closed; otherwise mark
closed, fail a pending resume callback, fire on_closed (moving the connection
events out), close all streams with the signal and close the transport. -/
def close (_hasEx : Bool) (sig : StreamCompletionSignal) (s : StateMachine) :
    StateMachine × List Event :=
  if s.isClosed_ then (s, [])
  else
    let s1 := { s with isClosed_ := true }
    let evResume : List Event :=
      if s1.resumeCallbackPending then [Event.onResumeError] else []
    let s2 := { s1 with resumeCallbackPending := false }
    let evClosed : List Event :=
      if s2.hasConnectionEvents then [Event.onClosed] else []
    let s3 := { s2 with hasConnectionEvents := false }
    let p1 := closeStreams sig s3
    let p2 := closeFrameTransport sig p1.1
    (p2.1, evResume ++ evClosed ++ p1.2 ++ p2.2)

/-- RSocketStateMachine.disconnect: no-op when already disconnected or closed;
otherwise fire on_disconnected, close the transport with signal CONNECTION_END
and fire on_streams_paused.  Streams, resume manager and pending output are
untouched. -/
def disconnect (_hasEx : Bool) (s : StateMachine) : StateMachine × List Event :=
  if isDisconnectedOrClosed s then (s, [])
  else
    let ev1 : List Event :=
      if s.hasConnectionEvents then [Event.onDisconnected] else []
    let p := closeFrameTransport StreamCompletionSignal.CONNECTION_END s
    let ev2 : List Event :=
      if p.1.hasConnectionEvents then [Event.onStreamsPaused] else []
    (p.1, ev1 ++ p.2 ++ ev2)

/-- RSocketStateMachine.outputFrame: track the frame in the resume manager
when the connection is resumable, then hand it to the transport. -/
def outputFrame (f : Frame) (s : StateMachine) : StateMachine × List Event :=
  let s1 := if s.isResumable_ then { s with rm := s.rm.trackSentFrame f } else s
  (s1, [Event.sentFrame f])

/-- RSocketStateMachine.outputFrameOrEnqueue: send when connected and no
resume is in flight, otherwise append to the pending-output queue. -/
def outputFrameOrEnqueue (f : Frame) (s : StateMachine) :
    StateMachine × List Event :=
  if !(isDisconnectedOrClosed s) && !s.resumeCallbackPending then outputFrame f s
  else ({ s with pendingOutput := s.pendingOutput ++ [f] }, [])

/-- The error-code-to-signal switch of RSocketStateMachine.closeWithError. -/
def signalFromErrorCode : ErrorCode → StreamCompletionSignal
  | ErrorCode.INVALID_SETUP => StreamCompletionSignal.INVALID_SETUP
  | ErrorCode.UNSUPPORTED_SETUP => StreamCompletionSignal.UNSUPPORTED_SETUP
  | ErrorCode.REJECTED_SETUP => StreamCompletionSignal.REJECTED_SETUP
  | _ => StreamCompletionSignal.ERROR

/-- RSocketStateMachine.closeWithError: derive the completion signal from the
error code, send or enqueue the ERROR frame if a serializer is available, then
close. -/
def closeWithError (err : Frame) (s : StateMachine) : StateMachine × List Event :=
  let sig := signalFromErrorCode err.errorCode
  let p := if s.hasSerializer then outputFrameOrEnqueue err s else (s, [])
  let q := close true sig p.1
  (q.1, p.2 ++ q.2)

/-- The pending-frame replay loop shared by connect and resumeFromPosition:
each queued frame is passed back through outputFrameOrEnqueue in order. -/
def outputPendingList : List Frame → StateMachine → StateMachine × List Event
  | [], s => (s, [])
  | f :: rest, s =>
    let p := outputFrameOrEnqueue f s
    let q := outputPendingList rest p.1
    (q.1, p.2 ++ q.2)

/-- RSocketStateMachine.resumeFromPosition: fire on_streams_resumed, replay
the cached frames from the position into the transport, re-emit the pending
output queue and restart the keepalive timer when still connected. -/
def resumeFromPosition (pos : Nat) (s : StateMachine) : StateMachine × List Event :=
  let ev1 : List Event :=
    if s.hasConnectionEvents then [Event.onStreamsResumed] else []
  let pending := s.pendingOutput
  let s1 := { s with pendingOutput := [] }
  let p := outputPendingList pending s1
  let started := !(isDisconnectedOrClosed p.1) && p.1.hasKeepaliveTimer
  let s2 := if started then { p.1 with keepaliveRunning := true } else p.1
  let ev3 : List Event := if started then [Event.keepaliveStarted] else []
  (s2, ev1 ++ [Event.replayedFromPosition pos] ++ p.2 ++ ev3)

/-- RSocketStateMachine.sendKeepalive: build a KEEPALIVE frame carrying the
implied position and the given RESPOND flag and pass it to
outputFrameOrEnqueue. -/
def sendKeepalive (flag : Bool) (s : StateMachine) : StateMachine × List Event :=
  let ping : Frame :=
    { kind := FrameType.KEEPALIVE
      streamId := some 0
      length := 0
      respondFlag := flag
      position := s.rm.impliedPos
      errorCode := ErrorCode.RESERVED_EC
      message := ""
      autodetectOk := true }
  outputFrameOrEnqueue ping s

/-- RSocketStateMachine.handleConnectionFrame: dispatch of stream-0 frames. -/
def handleConnectionFrame (f : Frame) (s : StateMachine) :
    StateMachine × List Event :=
  match f.kind with
  | FrameType.KEEPALIVE =>
    let s1 := { s with rm := s.rm.resetUpToPosition f.position }
    if s1.mode = Mode.SERVER then
      if f.respondFlag then sendKeepalive false s1
      else closeWithError (Frame.connectionError "keepalive without flag") s1
    else
      if f.respondFlag then
        closeWithError
          (Frame.connectionError "client received keepalive with respond flag") s1
      else if s1.hasKeepaliveTimer then (s1, [Event.keepaliveReceived])
      else (s1, [])
  | FrameType.METADATA_PUSH => (s, [Event.metadataPushDelivered])
  | FrameType.RESUME_OK =>
    if !s.resumeCallbackPending then
      closeWithError
        (Frame.connectionError "Received RESUME_OK while not resuming") s
    else if !(s.rm.isPositionAvailable f.position) then
      closeWithError
        (Frame.connectionError "Client cannot resume, server position is not available") s
    else
      let s1 := { s with resumeCallbackPending := false }
      let p := resumeFromPosition f.position s1
      (p.1, Event.onResumeOk :: p.2)
  | FrameType.ERROR =>
    let notifyResume :=
      (f.errorCode = ErrorCode.CONNECTION_ERROR ∨
        f.errorCode = ErrorCode.REJECTED_RESUME) ∧
      s.resumeCallbackPending = true
    let evs : List Event := if notifyResume then [Event.onResumeError] else []
    let s1 :=
      if notifyResume then { s with resumeCallbackPending := false } else s
    let p := close true StreamCompletionSignal.ERROR s1
    (p.1, evs ++ p.2)
  | _ =>
    closeWithError (Frame.connectionError "Unexpected frame for stream 0") s

/-- Modelled from the spec: StreamsFactory.registerNewPeerStreamId
(StreamsFactory.cpp is not under src; spec section 4.4): accept the id only
if it has the peer parity (client-initiated ids are odd, server-initiated even)
and strictly exceeds the last seen peer id; on acceptance record it. -/
def registerNewPeerStreamId (sid : Nat) (s : StateMachine) : Bool × StateMachine :=
  let ownParity : Nat := match s.mode with
    | Mode.CLIENT => 1
    | Mode.SERVER => 0
  if sid % 2 = ownParity then (false, s)
  else if sid ≤ s.lastPeerStreamId then (false, s)
  else (true, { s with lastPeerStreamId := sid })

/-- The protocol-version guard before peer-stream-id registration in
RSocketStateMachine.handleUnknownStream. -/
def versionAboveZero (s : StateMachine) : Bool :=
  !(s.versionMajor = 0 && s.versionMinor = 0)

/-- RSocketStateMachine.handleUnknownStream: register the peer stream id
(silently dropping the frame on rejection), then create a responder for a
REQUEST_* frame or close the connection with an error for every other kind. -/
def handleUnknownStream (sid : Nat) (f : Frame) (s : StateMachine) :
    StateMachine × List Event :=
  let reg := if versionAboveZero s then registerNewPeerStreamId sid s
             else (true, s)
  if !reg.1 then (reg.2, [])
  else
    let s1 := reg.2
    match f.kind with
    | FrameType.REQUEST_CHANNEL =>
      ({ s1 with streams_ := s1.streams_ ++ [sid] },
       [Event.responderCreated sid f.kind])
    | FrameType.REQUEST_STREAM =>
      ({ s1 with streams_ := s1.streams_ ++ [sid] },
       [Event.responderCreated sid f.kind])
    | FrameType.REQUEST_RESPONSE =>
      ({ s1 with streams_ := s1.streams_ ++ [sid] },
       [Event.responderCreated sid f.kind])
    | FrameType.REQUEST_FNF => (s1, [Event.fnfDelivered sid])
    | _ =>
      closeWithError
        (Frame.connectionError "Unexpected frame for unknown stream") s1

/-- RSocketStateMachine.handleStreamFrame: deliver REQUEST_N, CANCEL, PAYLOAD
and ERROR frames to the live stream automaton; close with a connection error
for the other defined kinds; silently ignore unknown kinds (the default
branch); frames for ids not in the map go to handleUnknownStream. -/
def handleStreamFrame (sid : Nat) (f : Frame) (s : StateMachine) :
    StateMachine × List Event :=
  if sid ∈ s.streams_ then
    match f.kind with
    | FrameType.REQUEST_N => (s, [Event.deliveredRequestN sid])
    | FrameType.CANCEL => (s, [Event.deliveredCancel sid])
    | FrameType.PAYLOAD => (s, [Event.deliveredPayload sid])
    | FrameType.ERROR => (s, [Event.deliveredError sid])
    | FrameType.UNKNOWN _ => (s, [])
    | _ =>
      closeWithError (Frame.connectionError "Unexpected frame for stream") s
  else handleUnknownStream sid f s

/-- RSocketStateMachine.processFrameImpl: drop everything when closed;
autodetect the serializer on a server if none is set (closing with an error on
failure); close with an error when the stream id cannot be decoded; advance
the resume tracker; route stream 0 to the connection handler; reject stream
frames while a resume is in flight; otherwise dispatch to the stream. -/
def processFrameImpl (f : Frame) (s : StateMachine) : StateMachine × List Event :=
  if isClosed s then (s, [])
  else
    let serializerOk :=
      s.hasSerializer || (s.mode = Mode.SERVER && f.autodetectOk)
    if !serializerOk then
      closeWithError (Frame.connectionError "Cannot detect protocol version") s
    else
      let s0 := { s with hasSerializer := true }
      match f.streamId with
      | none =>
        closeWithError (Frame.connectionError "Cannot decode stream ID") s0
      | some sid =>
        let s1 := { s0 with rm := s0.rm.trackReceivedFrame f }
        if sid = 0 then handleConnectionFrame f s1
        else if s1.resumeCallbackPending then
          closeWithError
            (Frame.connectionError "Received stream frame while resuming") s1
        else handleStreamFrame sid f s1

/-- RSocketStateMachine.onTerminalImpl: a transport terminal disconnects a
resumable connection and closes a non-resumable one, with signal
CONNECTION_ERROR iff the terminal carried an error. -/
def onTerminalImpl (hasEx : Bool) (s : StateMachine) : StateMachine × List Event :=
  if s.isResumable_ then disconnect hasEx s
  else
    let sig := if hasEx then StreamCompletionSignal.CONNECTION_ERROR
               else StreamCompletionSignal.CONNECTION_END
    close hasEx sig s

/-- RSocketStateMachine.endStreamInternal: when the id is live, notify the
resume manager, remove the map entry before notifying the automaton, and
report true; otherwise report false without touching anything. -/
def endStreamInternal (sid : Nat) (sig : StreamCompletionSignal)
    (s : StateMachine) : StateMachine × List Event × Bool :=
  if sid ∈ s.streams_ then
    ({ s with streams_ := s.streams_.erase sid, rm := s.rm.onStreamClosed sid },
     endStreamEvents sig sid, true)
  else (s, [], false)

/-- RSocketStateMachine.endStream. -/
def endStream (sid : Nat) (sig : StreamCompletionSignal) (s : StateMachine) :
    StateMachine × List Event :=
  let p := endStreamInternal sid sig s
  (p.1, p.2.1)

/-- The client-position test of RSocketStateMachine.resumeFromPositionOrClose:
the position is acceptable when it is the unspecified sentinel or at most the
implied position. -/
def clientPositionExist (s : StateMachine) (clientPos : Option Nat) : Bool :=
  match clientPos with
  | none => true
  | some cp => decide (cp ≤ s.rm.impliedPos)

/-- The RESUME_OK frame built by resumeFromPositionOrClose, carrying the
implied position. -/
def resumeOkFrame (pos : Nat) : Frame :=
  { kind := FrameType.RESUME_OK
    streamId := some 0
    length := 0
    respondFlag := false
    position := pos
    errorCode := ErrorCode.RESERVED_EC
    message := ""
    autodetectOk := true }

/-- RSocketStateMachine.resumeFromPositionOrClose: when the client position is
acceptable and the server position is available, write RESUME_OK carrying the
implied position directly to the transport and resume from the server
position; otherwise close with a connection error.  Returns whether the
resume was accepted. -/
def resumeFromPositionOrClose (serverPos : Nat) (clientPos : Option Nat)
    (s : StateMachine) : StateMachine × List Event × Bool :=
  if clientPositionExist s clientPos && s.rm.isPositionAvailable serverPos then
    let p := resumeFromPosition serverPos s
    (p.1, Event.sentFrame (resumeOkFrame s.rm.impliedPos) :: p.2, true)
  else
    let q := closeWithError
      (Frame.connectionError "Cannot resume server, client position is not available") s
    (q.1, q.2, false)

/-- One local termination request: RSocketStateMachine.close or
RSocketStateMachine.disconnect with its argument. -/
inductive TermOp
  | closeOp (hasEx : Bool) (sig : StreamCompletionSignal)
  | disconnectOp (hasEx : Bool)
deriving DecidableEq

/-- Whether a termination request is a close. -/
def isCloseOp : TermOp → Bool
  | TermOp.closeOp _ _ => true
  | TermOp.disconnectOp _ => false

/-- Run a sequence of close and disconnect calls, collecting the full trace. -/
def runTermOps : List TermOp → StateMachine → StateMachine × List Event
  | [], s => (s, [])
  | op :: rest, s =>
    let p := match op with
      | TermOp.closeOp e sig => close e sig s
      | TermOp.disconnectOp e => disconnect e s
    let q := runTermOps rest p.1
    (q.1, p.2 ++ q.2)

/-!
The earlier ConnectionAutomaton (src/ConnectionAutomaton.cpp, provided as
src/unnamed/part_000), modelled only as far as the RESUME handling of
onConnectionFrame needs: the server-side token lookup through the resume
listener, the stream-state swap, RESUME_OK emission and the clean/dirty
classification of live streams.
-/

/-- Modelled from the spec: the received-side ResumeCache of the earlier code
base (src/ResumeCache.cpp is not under src).  sentLog keeps every tracked
outbound frame in order; firstPos is the eviction boundary: entries whose end
position is at most firstPos have been evicted. -/
structure CAResumeCache where
  sentLog : List CacheEntry
  firstPos : Nat
deriving DecidableEq

/-- Modelled from the spec: is_position_available(position, stream_id) holds
iff every frame of that stream past the position is still cached, i.e. none
of the stream frames with end position beyond the given position has been
evicted (spec section 4.3); this drives the clean/dirty classification. -/
def CAResumeCache.isPositionAvailableFor (rc : CAResumeCache) (pos sid : Nat) :
    Bool :=
  rc.sentLog.all fun e =>
    if e.streamId = some sid ∧ pos < e.endPos then decide (rc.firstPos < e.endPos)
    else true

/-- The per-connection StreamState of the earlier code base: live stream ids,
the resume cache and the received-side implied position. -/
structure CAStreamState where
  streams : List Nat
  resumeCache : CAResumeCache
  impliedPos : Nat
deriving DecidableEq

/-- Observable effects of the ConnectionAutomaton RESUME handling. -/
inductive CAEvent
  | sentResumeOk (pos : Nat)
  | cleanResume (sid : Nat)
  | dirtyResume (sid : Nat)
  | sentError (code : ErrorCode) (msg : String)
  | endedStream (sid : Nat) (sig : StreamCompletionSignal)
  | closed
deriving DecidableEq

/-- The ConnectionAutomaton state, restricted to the fields the RESUME case
reads: role, resumability, transport presence, the current stream state and
the server resume listener modelled as a token-to-stream-state table. -/
structure ConnectionAutomaton where
  isServer : Bool
  isResumable : Bool
  hasTransport : Bool
  streamState : CAStreamState
  knownTokens : List (Nat × CAStreamState)
deriving DecidableEq

/-- ConnectionAutomaton.closeWithError: emit the ERROR frame, end every live
stream with signal ERROR and fire on_closed. -/
def CAcloseWithError (code : ErrorCode) (msg : String) (ca : ConnectionAutomaton) :
    ConnectionAutomaton × List CAEvent :=
  let evs :=
    CAEvent.sentError code msg ::
      (ca.streamState.streams.map fun sid =>
        CAEvent.endedStream sid StreamCompletionSignal.ERROR) ++ [CAEvent.closed]
  ({ ca with
      hasTransport := false
      streamState := { ca.streamState with streams := [] } },
   evs)

/-- The RESUME case of ConnectionAutomaton.onConnectionFrame: on a server with
resumption enabled, look the token up through the resume listener; when found,
swap the stored stream state in, answer RESUME_OK with the implied position
and classify every live stream clean or dirty through
is_position_available(peer position, stream id); otherwise close with the
connection error message. -/
def CAhandleResume (token : Nat) (peerPos : Nat) (ca : ConnectionAutomaton) :
    ConnectionAutomaton × List CAEvent :=
  let looked :=
    if ca.isServer && ca.isResumable then ca.knownTokens.lookup token else none
  match looked with
  | some st =>
    let ca1 := { ca with streamState := st }
    let classEvs := ca1.streamState.streams.map fun sid =>
      if ca1.streamState.resumeCache.isPositionAvailableFor peerPos sid then
        CAEvent.cleanResume sid
      else CAEvent.dirtyResume sid
    (ca1, CAEvent.sentResumeOk ca1.streamState.impliedPos :: classEvs)
  | none =>
    CAcloseWithError ErrorCode.CONNECTION_ERROR "can not resume" ca

/-- Trace predicate: no event delivers an inbound frame to a stream. -/
def noStreamDelivery (evs : List Event) : Bool :=
  evs.all fun ev => !isStreamDelivery ev

lemma noStreamDelivery_append (a b : List Event) :
    noStreamDelivery (a ++ b) = (noStreamDelivery a && noStreamDelivery b) := by
  simp [noStreamDelivery]

lemma countOnClosed_append (a b : List Event) :
    countOnClosed (a ++ b) = countOnClosed a + countOnClosed b := by
  simp [countOnClosed]

lemma update_hasSerializer_self (s : StateMachine) (h : s.hasSerializer = true) :
    { s with hasSerializer := true } = s := by
  cases s
  simp_all

lemma closeFrameTransport_fst (sig : StreamCompletionSignal) (s : StateMachine) :
    (closeFrameTransport sig s).1 =
      if isDisconnectedOrClosed s then s
      else
        { s with
            hasTransport := false
            resumeCallbackPending := false
            keepaliveRunning :=
              if s.hasKeepaliveTimer then false else s.keepaliveRunning } := by
  unfold closeFrameTransport
  split <;> rfl

lemma closeFrameTransport_events (sig : StreamCompletionSignal) (s : StateMachine) :
    noStreamDelivery (closeFrameTransport sig s).2 = true ∧
    countOnClosed (closeFrameTransport sig s).2 = 0 := by
  simp only [closeFrameTransport]
  split_ifs <;>
    simp [noStreamDelivery, countOnClosed, isStreamDelivery, isOnClosedEvent]

lemma closeStreamsAux_events (sig : StreamCompletionSignal) (l : List Nat)
    (rm : ResumeManager) :
    noStreamDelivery (closeStreamsAux sig l rm).2 = true ∧
    countOnClosed (closeStreamsAux sig l rm).2 = 0 := by
  induction l generalizing rm with
  | nil => simp [closeStreamsAux, noStreamDelivery, countOnClosed]
  | cons sid rest ih =>
    have h := ih (rm.onStreamClosed sid)
    simp only [closeStreamsAux]
    refine ⟨?_, ?_⟩
    · rw [noStreamDelivery_append, h.1]
      simp [endStreamEvents, noStreamDelivery, isStreamDelivery]
    · rw [countOnClosed_append, h.2]
      simp [endStreamEvents, countOnClosed, isOnClosedEvent]

lemma closeStreams_fst (sig : StreamCompletionSignal) (s : StateMachine) :
    (closeStreams sig s).1 =
      { s with streams_ := [], rm := (closeStreamsAux sig s.streams_ s.rm).1 } := rfl

lemma close_fst_isClosed (e : Bool) (sig : StreamCompletionSignal)
    (s : StateMachine) : (close e sig s).1.isClosed_ = true := by
  unfold close
  split
  · simp_all
  · simp [closeStreams_fst, closeFrameTransport_fst]
    split <;> rfl

lemma close_events (e : Bool) (sig : StreamCompletionSignal) (s : StateMachine) :
    noStreamDelivery (close e sig s).2 = true ∧
    countOnClosed (close e sig s).2 =
      (if s.isClosed_ then 0 else if s.hasConnectionEvents then 1 else 0) := by
  unfold close
  split
  · simp_all [noStreamDelivery, countOnClosed]
  · rename_i h
    simp only [closeStreams, noStreamDelivery_append, countOnClosed_append]
    refine ⟨?_, ?_⟩
    · rw [(closeStreamsAux_events _ _ _).1, (closeFrameTransport_events _ _).1]
      split_ifs <;> simp [noStreamDelivery, isStreamDelivery]
    · rw [(closeStreamsAux_events _ _ _).2, (closeFrameTransport_events _ _).2]
      split_ifs <;> simp [countOnClosed, isOnClosedEvent]

lemma close_noop_of_closed (e : Bool) (sig : StreamCompletionSignal)
    (s : StateMachine) (h : s.isClosed_ = true) : close e sig s = (s, []) := by
  simp [close, h]

lemma close_fst_hasConnectionEvents (e : Bool) (sig : StreamCompletionSignal)
    (s : StateMachine) (h : s.isClosed_ = false) :
    (close e sig s).1.hasConnectionEvents = false := by
  simp only [close, h]
  simp [closeStreams_fst, closeFrameTransport_fst]
  split <;> rfl

lemma closeFrameTransport_close_event (sig : StreamCompletionSignal)
    (t : StateMachine) (ht : t.hasTransport = true) :
    (if sig = StreamCompletionSignal.CONNECTION_ERROR then
       Event.transportClosedWithError
     else Event.transportClosedClean) ∈ (closeFrameTransport sig t).2 := by
  unfold closeFrameTransport
  rw [if_neg (by simp [isDisconnectedOrClosed, ht])]
  dsimp only
  split_ifs <;> simp

lemma close_transport_event (e : Bool) (sig : StreamCompletionSignal)
    (s : StateMachine) (hnc : s.isClosed_ = false) (htr : s.hasTransport = true) :
    (if sig = StreamCompletionSignal.CONNECTION_ERROR then
       Event.transportClosedWithError
     else Event.transportClosedClean) ∈ (close e sig s).2 := by
  unfold close
  rw [if_neg (by simp [hnc])]
  dsimp only
  refine List.mem_append_right _ ?_
  exact closeFrameTransport_close_event sig _ htr

lemma disconnect_fst (e : Bool) (s : StateMachine) :
    (disconnect e s).1 =
      if isDisconnectedOrClosed s then s
      else
        { s with
            hasTransport := false
            resumeCallbackPending := false
            keepaliveRunning :=
              if s.hasKeepaliveTimer then false else s.keepaliveRunning } := by
  unfold disconnect
  split
  · rename_i h
    simp [h]
  · rename_i h
    simp [closeFrameTransport_fst, h]

lemma disconnect_events (e : Bool) (s : StateMachine) :
    noStreamDelivery (disconnect e s).2 = true ∧
    countOnClosed (disconnect e s).2 = 0 := by
  unfold disconnect
  split
  · simp [noStreamDelivery, countOnClosed]
  · have hft := closeFrameTransport_events StreamCompletionSignal.CONNECTION_END s
    simp only [noStreamDelivery_append, countOnClosed_append]
    constructor
    · simp [hft.1]
      split_ifs <;> simp [noStreamDelivery, isStreamDelivery]
    · simp [hft.2]
      split_ifs <;> simp [countOnClosed, isOnClosedEvent]

lemma outputFrameOrEnqueue_fst_fields (f : Frame) (s : StateMachine) :
    (outputFrameOrEnqueue f s).1.isClosed_ = s.isClosed_ ∧
    (outputFrameOrEnqueue f s).1.hasConnectionEvents = s.hasConnectionEvents ∧
    (outputFrameOrEnqueue f s).1.streams_ = s.streams_ ∧
    (outputFrameOrEnqueue f s).1.hasTransport = s.hasTransport ∧
    (outputFrameOrEnqueue f s).1.resumeCallbackPending = s.resumeCallbackPending ∧
    (outputFrameOrEnqueue f s).1.hasKeepaliveTimer = s.hasKeepaliveTimer := by
  unfold outputFrameOrEnqueue outputFrame
  split
  · split <;> simp
  · simp

lemma outputFrameOrEnqueue_events (f : Frame) (s : StateMachine) :
    noStreamDelivery (outputFrameOrEnqueue f s).2 = true ∧
    countOnClosed (outputFrameOrEnqueue f s).2 = 0 := by
  unfold outputFrameOrEnqueue outputFrame
  split
  · split <;> simp [noStreamDelivery, countOnClosed, isStreamDelivery, isOnClosedEvent]
  · simp [noStreamDelivery, countOnClosed]

lemma closeWithError_fst_isClosed (err : Frame) (s : StateMachine) :
    (closeWithError err s).1.isClosed_ = true := by
  unfold closeWithError
  simp [close_fst_isClosed]

lemma closeWithError_events (err : Frame) (s : StateMachine) :
    noStreamDelivery (closeWithError err s).2 = true := by
  unfold closeWithError
  dsimp only
  split
  · rw [noStreamDelivery_append, (outputFrameOrEnqueue_events _ _).1,
      (close_events _ _ _).1]
    rfl
  · rw [noStreamDelivery_append, (close_events _ _ _).1]
    rfl

/-- The frames a trace hands to the transport, in order. -/
def sentFrames (evs : List Event) : List Frame :=
  evs.filterMap fun ev =>
    match ev with
    | Event.sentFrame g => some g
    | _ => none

lemma sentFrames_append (a b : List Event) :
    sentFrames (a ++ b) = sentFrames a ++ sentFrames b := by
  simp [sentFrames]

lemma closeStreamsAux_sentFrames (sig : StreamCompletionSignal) (l : List Nat)
    (rm : ResumeManager) : sentFrames (closeStreamsAux sig l rm).2 = [] := by
  induction l generalizing rm with
  | nil => simp [closeStreamsAux, sentFrames]
  | cons sid rest ih =>
    simp only [closeStreamsAux]
    rw [sentFrames_append, ih (rm.onStreamClosed sid)]
    simp [endStreamEvents, sentFrames]

lemma closeFrameTransport_sentFrames (sig : StreamCompletionSignal)
    (s : StateMachine) : sentFrames (closeFrameTransport sig s).2 = [] := by
  simp only [closeFrameTransport]
  split_ifs <;> simp [sentFrames]

lemma close_sentFrames (e : Bool) (sig : StreamCompletionSignal)
    (s : StateMachine) : sentFrames (close e sig s).2 = [] := by
  unfold close
  split
  · simp [sentFrames]
  · simp only [closeStreams, sentFrames_append]
    rw [closeStreamsAux_sentFrames, closeFrameTransport_sentFrames]
    split_ifs <;> simp [sentFrames]

lemma closeWithError_sentFrames (err : Frame) (s : StateMachine)
    (hser : s.hasSerializer = true) (htr : s.hasTransport = true)
    (hres : s.resumeCallbackPending = false) :
    sentFrames (closeWithError err s).2 = [err] := by
  unfold closeWithError
  dsimp only
  rw [if_pos hser, sentFrames_append, close_sentFrames]
  simp [outputFrameOrEnqueue, outputFrame, isDisconnectedOrClosed, htr, hres,
    sentFrames]

lemma closeWithError_sends (err : Frame) (s : StateMachine)
    (hser : s.hasSerializer = true) (htr : s.hasTransport = true)
    (hres : s.resumeCallbackPending = false) :
    Event.sentFrame err ∈ (closeWithError err s).2 := by
  unfold closeWithError
  dsimp only
  rw [if_pos hser]
  simp [outputFrameOrEnqueue, outputFrame, isDisconnectedOrClosed, htr, hres]

/-- An empty resume manager, as freshly constructed. -/
def rmEmpty : ResumeManager :=
  { impliedPos := 0, sentPos := 0, firstSentPos := 0, cache := [],
    closedStreams := [] }

/-- A connected resumable server with two live streams, used as a concrete
test vehicle. -/
def connectedServer : StateMachine :=
  { mode := Mode.SERVER, isClosed_ := false, hasTransport := true,
    resumeCallbackPending := false, isResumable_ := true,
    remoteResumeable_ := true, hasSerializer := true, versionMajor := 1,
    versionMinor := 0, streams_ := [3, 7], lastPeerStreamId := 0,
    pendingOutput := [], rm := rmEmpty, hasKeepaliveTimer := true,
    keepaliveRunning := true, hasConnectionEvents := true }

/-- A concrete PAYLOAD frame for stream 5. -/
def payloadFrame5 : Frame :=
  { kind := FrameType.PAYLOAD, streamId := some 5, length := 12,
    respondFlag := false, position := 0, errorCode := ErrorCode.RESERVED_EC,
    message := "", autodetectOk := true }

/-- Claim C10: every inbound frame delivered after the connection has reached
the CLOSED state is a no-op: the frame is silently dropped, no event fires,
and no connection, stream or resume-manager state changes. -/
theorem c10_frames_after_closed_dropped (f : Frame) (s : StateMachine)
    (h : s.isClosed_ = true) : processFrameImpl f s = (s, []) := by
  simp [processFrameImpl, isClosed, h]

theorem c10_witness :
    ({ connectedServer with isClosed_ := true } : StateMachine).isClosed_ = true ∧
    processFrameImpl payloadFrame5 { connectedServer with isClosed_ := true } =
      ({ connectedServer with isClosed_ := true }, []) :=
  ⟨rfl, c10_frames_after_closed_dropped payloadFrame5
    { connectedServer with isClosed_ := true } rfl⟩

/-- Claim C5: output_or_enqueue sends the frame to the transport exactly when
a transport is bound and no resume is in flight, and otherwise appends it to
the pending-output queue; every frame actually sent while the connection is
resumable is recorded in the resume cache through trackSentFrame with the
frame bytes, kind and stream id, and frames sent while not resumable are not
recorded. -/
theorem c5_output_or_enqueue_spec (f : Frame) (s : StateMachine) :
    (s.hasTransport = true → s.resumeCallbackPending = false →
      outputFrameOrEnqueue f s =
        ((if s.isResumable_ = true then { s with rm := s.rm.trackSentFrame f }
          else s),
         [Event.sentFrame f])) ∧
    ((s.hasTransport = false ∨ s.resumeCallbackPending = true) →
      outputFrameOrEnqueue f s =
        ({ s with pendingOutput := s.pendingOutput ++ [f] }, [])) := by
  constructor
  · intro h1 h2
    simp [outputFrameOrEnqueue, outputFrame, isDisconnectedOrClosed, h1, h2]
  · rintro (h | h) <;>
      simp [outputFrameOrEnqueue, isDisconnectedOrClosed, h]

theorem c5_witness :
    outputFrameOrEnqueue payloadFrame5 connectedServer =
      ({ connectedServer with rm := connectedServer.rm.trackSentFrame payloadFrame5 },
       [Event.sentFrame payloadFrame5]) ∧
    outputFrameOrEnqueue payloadFrame5
        { connectedServer with resumeCallbackPending := true } =
      ({ connectedServer with
          resumeCallbackPending := true
          pendingOutput := [payloadFrame5] }, []) := by
  constructor
  · have h := (c5_output_or_enqueue_spec payloadFrame5 connectedServer).1 rfl rfl
    simpa using h
  · have h := (c5_output_or_enqueue_spec payloadFrame5
      { connectedServer with resumeCallbackPending := true }).2 (Or.inr rfl)
    simpa using h

/-- Claim C6: end_stream is idempotent: the first call for a live id notifies
the resume manager and removes the map entry before delivering the terminal
signal to the automaton, and any later call for the same id is a no-op, so
the automaton observes exactly one terminal signal. -/
theorem c6_end_stream_idempotent (s : StateMachine) (sid : Nat)
    (sig : StreamCompletionSignal) (hmem : sid ∈ s.streams_)
    (hnd : s.streams_.Nodup) :
    endStream sid sig s =
      ({ s with
          streams_ := s.streams_.erase sid
          rm := s.rm.onStreamClosed sid },
       [Event.resumeManagerStreamClosed sid, Event.streamRemoved sid,
        Event.streamEnded sid sig]) ∧
    ∀ sig2, endStream sid sig2 (endStream sid sig s).1 =
      ((endStream sid sig s).1, []) := by
  have hne : sid ∉ s.streams_.erase sid := by
    intro hc
    rcases (List.Nodup.mem_erase_iff hnd).1 hc with ⟨hne2, _⟩
    exact hne2 rfl
  constructor
  · simp [endStream, endStreamInternal, hmem, endStreamEvents]
  · intro sig2
    simp [endStream, endStreamInternal, hmem, endStreamEvents, hne]

theorem c6_witness :
    endStream 3 StreamCompletionSignal.COMPLETE connectedServer =
      ({ connectedServer with
          streams_ := [7]
          rm := connectedServer.rm.onStreamClosed 3 },
       [Event.resumeManagerStreamClosed 3, Event.streamRemoved 3,
        Event.streamEnded 3 StreamCompletionSignal.COMPLETE]) ∧
    endStream 3 StreamCompletionSignal.CANCEL
        (endStream 3 StreamCompletionSignal.COMPLETE connectedServer).1 =
      ((endStream 3 StreamCompletionSignal.COMPLETE connectedServer).1, []) := by
  have h := c6_end_stream_idempotent connectedServer 3
    StreamCompletionSignal.COMPLETE (by decide) (by decide)
  exact ⟨by simpa using h.1, h.2 StreamCompletionSignal.CANCEL⟩

/-- Claim C2: while a resume is in flight (a resume callback is pending) no
stream-level frame is processed or emitted: every inbound frame with a
non-zero stream id closes the connection with a connection error instead of
being delivered to a stream, and every outbound frame is appended to the
pending-output queue instead of being sent. -/
theorem c2_resuming_blocks_stream_frames (s : StateMachine) (f : Frame)
    (sid : Nat) (hnc : s.isClosed_ = false)
    (hres : s.resumeCallbackPending = true) (hser : s.hasSerializer = true)
    (hsid : f.streamId = some sid) (hnz : sid ≠ 0) :
    (processFrameImpl f s).1.isClosed_ = true ∧
    noStreamDelivery (processFrameImpl f s).2 = true ∧
    ∀ g, outputFrameOrEnqueue g s =
      ({ s with pendingOutput := s.pendingOutput ++ [g] }, []) := by
  refine ⟨?_, ?_, ?_⟩
  · simp [processFrameImpl, isClosed, hnc, hser, hsid, hnz, hres,
      closeWithError_fst_isClosed]
  · simp [processFrameImpl, isClosed, hnc, hser, hsid, hnz, hres,
      closeWithError_events]
  · intro g
    simp [outputFrameOrEnqueue, hres]

theorem c2_witness :
    ((processFrameImpl payloadFrame5
        { connectedServer with resumeCallbackPending := true }).1.isClosed_ = true) ∧
    noStreamDelivery (processFrameImpl payloadFrame5
        { connectedServer with resumeCallbackPending := true }).2 = true ∧
    outputFrameOrEnqueue payloadFrame5
        { connectedServer with resumeCallbackPending := true } =
      ({ connectedServer with
          resumeCallbackPending := true
          pendingOutput := [payloadFrame5] }, []) := by
  have h := c2_resuming_blocks_stream_frames
    { connectedServer with resumeCallbackPending := true } payloadFrame5 5
    rfl rfl rfl rfl (by decide)
  refine ⟨h.1, h.2.1, ?_⟩
  have h3 := h.2.2 payloadFrame5
  simpa using h3

/-- Claim C9: a server that receives a stream-0 KEEPALIVE frame whose RESPOND
flag is clear closes the connection with the connection error
keepalive without flag. -/
theorem c9_keepalive_without_flag (s : StateMachine) (f : Frame)
    (hmode : s.mode = Mode.SERVER) (hnc : s.isClosed_ = false)
    (hser : s.hasSerializer = true) (htr : s.hasTransport = true)
    (hres : s.resumeCallbackPending = false)
    (hk : f.kind = FrameType.KEEPALIVE) (hsid : f.streamId = some 0)
    (hflag : f.respondFlag = false) :
    (processFrameImpl f s).1.isClosed_ = true ∧
    Event.sentFrame (Frame.connectionError "keepalive without flag")
      ∈ (processFrameImpl f s).2 := by
  constructor
  · simp [processFrameImpl, isClosed, hnc, hser, hsid, hk,
      handleConnectionFrame, hmode, hflag, closeWithError_fst_isClosed]
  · simp only [processFrameImpl, isClosed, hnc, hser, hsid, hk,
      handleConnectionFrame, hmode, hflag]
    simp only [Bool.true_or, Bool.not_true, Bool.false_eq_true, if_false]
    exact closeWithError_sends _ _ rfl htr hres

theorem c9_witness :
    ((processFrameImpl
        { payloadFrame5 with kind := FrameType.KEEPALIVE, streamId := some 0 }
        connectedServer).1.isClosed_ = true) ∧
    Event.sentFrame (Frame.connectionError "keepalive without flag")
      ∈ (processFrameImpl
          { payloadFrame5 with kind := FrameType.KEEPALIVE, streamId := some 0 }
          connectedServer).2 :=
  c9_keepalive_without_flag connectedServer
    { payloadFrame5 with kind := FrameType.KEEPALIVE, streamId := some 0 }
    rfl rfl rfl rfl rfl rfl rfl rfl

/-- Claim C8: when the transport delivers a terminal signal, a resumable
connection only disconnects, keeping the streams map, resume cache and
pending-output queue and firing no on_closed; a non-resumable connection
closes, with signal CONNECTION_ERROR when the terminal carried an error and
CONNECTION_END otherwise. -/
theorem c8_transport_terminal (s : StateMachine) (hasEx : Bool)
    (hnc : s.isClosed_ = false) (htr : s.hasTransport = true) :
    (s.isResumable_ = true →
      onTerminalImpl hasEx s = disconnect hasEx s ∧
      (onTerminalImpl hasEx s).1.streams_ = s.streams_ ∧
      (onTerminalImpl hasEx s).1.rm = s.rm ∧
      (onTerminalImpl hasEx s).1.pendingOutput = s.pendingOutput ∧
      (onTerminalImpl hasEx s).1.hasTransport = false ∧
      (onTerminalImpl hasEx s).1.isClosed_ = false ∧
      countOnClosed (onTerminalImpl hasEx s).2 = 0) ∧
    (s.isResumable_ = false →
      onTerminalImpl hasEx s =
        close hasEx
          (if hasEx then StreamCompletionSignal.CONNECTION_ERROR
           else StreamCompletionSignal.CONNECTION_END) s ∧
      (onTerminalImpl hasEx s).1.isClosed_ = true ∧
      (hasEx = true →
        Event.transportClosedWithError ∈ (onTerminalImpl hasEx s).2) ∧
      (hasEx = false →
        Event.transportClosedClean ∈ (onTerminalImpl hasEx s).2)) := by
  constructor
  · intro hr
    have heq : onTerminalImpl hasEx s = disconnect hasEx s := by
      simp [onTerminalImpl, hr]
    rw [heq, disconnect_fst]
    have hd : isDisconnectedOrClosed s = false := by
      simp [isDisconnectedOrClosed, htr]
    rw [hd]
    refine ⟨rfl, by simp, by simp, by simp, by simp, by simp [hnc], ?_⟩
    exact (disconnect_events hasEx s).2
  · intro hr
    have heq : onTerminalImpl hasEx s =
        close hasEx
          (if hasEx then StreamCompletionSignal.CONNECTION_ERROR
           else StreamCompletionSignal.CONNECTION_END) s := by
      simp [onTerminalImpl, hr]
    refine ⟨heq, by rw [heq]; exact close_fst_isClosed _ _ _, ?_, ?_⟩
    · intro he
      rw [heq, he]
      have := close_transport_event hasEx
        StreamCompletionSignal.CONNECTION_ERROR s hnc htr
      simpa using this
    · intro he
      rw [heq, he]
      have := close_transport_event hasEx
        StreamCompletionSignal.CONNECTION_END s hnc htr
      simpa using this

theorem c8_witness :
    (onTerminalImpl true connectedServer = disconnect true connectedServer ∧
     (onTerminalImpl true connectedServer).1.streams_ = connectedServer.streams_ ∧
     countOnClosed (onTerminalImpl true connectedServer).2 = 0) ∧
    ((onTerminalImpl true
        { connectedServer with isResumable_ := false }).1.isClosed_ = true ∧
     Event.transportClosedWithError ∈
       (onTerminalImpl true { connectedServer with isResumable_ := false }).2) := by
  have h1 := (c8_transport_terminal connectedServer true rfl rfl).1 rfl
  have h2 := (c8_transport_terminal
    { connectedServer with isResumable_ := false } true rfl rfl).2 rfl
  exact ⟨⟨h1.1, h1.2.1, h1.2.2.2.2.2.2⟩, ⟨h2.2.1, h2.2.2.1 rfl⟩⟩

lemma disconnect_preserves (e : Bool) (s : StateMachine) :
    (disconnect e s).1.isClosed_ = s.isClosed_ ∧
    (disconnect e s).1.hasConnectionEvents = s.hasConnectionEvents := by
  rw [disconnect_fst]
  split <;> simp

lemma runTermOps_closed (ops : List TermOp) :
    ∀ s : StateMachine, s.isClosed_ = true →
      countOnClosed (runTermOps ops s).2 = 0 ∧
      (runTermOps ops s).1.isClosed_ = true := by
  induction ops with
  | nil =>
    intro s h
    simp [runTermOps, countOnClosed, h]
  | cons op rest ih =>
    intro s h
    cases op with
    | closeOp e sig =>
      have hrec := ih s h
      simp only [runTermOps, close_noop_of_closed e sig s h]
      rw [countOnClosed_append]
      refine ⟨?_, hrec.2⟩
      rw [hrec.1]
      simp [countOnClosed]
    | disconnectOp e =>
      have hpres := (disconnect_preserves e s).1
      have hcl : (disconnect e s).1.isClosed_ = true := by rw [hpres]; exact h
      have hrec := ih (disconnect e s).1 hcl
      simp only [runTermOps]
      rw [countOnClosed_append, (disconnect_events e s).2, hrec.1]
      exact ⟨rfl, hrec.2⟩

lemma runTermOps_any_close_closed (ops : List TermOp) :
    ∀ s : StateMachine, ops.any isCloseOp = true →
      (runTermOps ops s).1.isClosed_ = true := by
  induction ops with
  | nil =>
    intro s hc
    simp at hc
  | cons op rest ih =>
    intro s hc
    cases op with
    | closeOp e sig =>
      simp only [runTermOps]
      exact (runTermOps_closed rest _ (close_fst_isClosed e sig s)).2
    | disconnectOp e =>
      simp only [List.any_cons, isCloseOp, Bool.false_or] at hc
      simp only [runTermOps]
      exact ih _ hc

lemma runTermOps_count_one (ops : List TermOp) :
    ∀ s : StateMachine, s.isClosed_ = false → s.hasConnectionEvents = true →
      ops.any isCloseOp = true →
      countOnClosed (runTermOps ops s).2 = 1 := by
  induction ops with
  | nil =>
    intro s _ _ hc
    simp at hc
  | cons op rest ih =>
    intro s hopen hev hc
    cases op with
    | closeOp e sig =>
      simp only [runTermOps]
      rw [countOnClosed_append]
      have hcount : countOnClosed (close e sig s).2 = 1 := by
        rw [(close_events e sig s).2]
        simp [hopen, hev]
      have hrest := (runTermOps_closed rest (close e sig s).1
        (close_fst_isClosed e sig s)).1
      rw [hcount, hrest]
    | disconnectOp e =>
      simp only [List.any_cons, isCloseOp, Bool.false_or] at hc
      have hpres := disconnect_preserves e s
      simp only [runTermOps]
      rw [countOnClosed_append, (disconnect_events e s).2]
      have hrec := ih (disconnect e s).1
        (by rw [hpres.1]; exact hopen) (by rw [hpres.2]; exact hev) hc
      rw [hrec]

/-- Claim C1: close is idempotent: any sequence of close and disconnect calls
containing at least one close fires on_closed exactly once, and every close
issued after such a sequence is a no-op that leaves all connection state
unchanged. -/
theorem c1_close_idempotent (s : StateMachine) (ops : List TermOp)
    (hopen : s.isClosed_ = false) (hev : s.hasConnectionEvents = true)
    (hc : ops.any isCloseOp = true) :
    countOnClosed (runTermOps ops s).2 = 1 ∧
    ∀ e sig, close e sig (runTermOps ops s).1 = ((runTermOps ops s).1, []) := by
  refine ⟨runTermOps_count_one ops s hopen hev hc, ?_⟩
  intro e sig
  exact close_noop_of_closed e sig _ (runTermOps_any_close_closed ops s hc)

theorem c1_witness :
    countOnClosed (runTermOps
      [TermOp.disconnectOp false,
       TermOp.closeOp false StreamCompletionSignal.CONNECTION_END,
       TermOp.closeOp true StreamCompletionSignal.ERROR,
       TermOp.disconnectOp true]
      connectedServer).2 = 1 ∧
    close false StreamCompletionSignal.ERROR
        (runTermOps
          [TermOp.disconnectOp false,
           TermOp.closeOp false StreamCompletionSignal.CONNECTION_END,
           TermOp.closeOp true StreamCompletionSignal.ERROR,
           TermOp.disconnectOp true]
          connectedServer).1 =
      ((runTermOps
          [TermOp.disconnectOp false,
           TermOp.closeOp false StreamCompletionSignal.CONNECTION_END,
           TermOp.closeOp true StreamCompletionSignal.ERROR,
           TermOp.disconnectOp true]
          connectedServer).1, []) := by
  have h := c1_close_idempotent connectedServer
    [TermOp.disconnectOp false,
     TermOp.closeOp false StreamCompletionSignal.CONNECTION_END,
     TermOp.closeOp true StreamCompletionSignal.ERROR,
     TermOp.disconnectOp true]
    rfl rfl (by decide)
  exact ⟨h.1, h.2 false StreamCompletionSignal.ERROR⟩

lemma outputFrameOrEnqueue_sent (g : Frame) (s : StateMachine)
    (htr : s.hasTransport = true) (hres : s.resumeCallbackPending = false) :
    outputFrameOrEnqueue g s =
      ((if s.isResumable_ = true then { s with rm := s.rm.trackSentFrame g }
        else s),
       [Event.sentFrame g]) := by
  simp [outputFrameOrEnqueue, outputFrame, isDisconnectedOrClosed, htr, hres]

lemma outputPendingList_sends (l : List Frame) :
    ∀ s : StateMachine, s.hasTransport = true →
      s.resumeCallbackPending = false →
      (outputPendingList l s).2 = l.map Event.sentFrame ∧
      (outputPendingList l s).1.pendingOutput = s.pendingOutput ∧
      (outputPendingList l s).1.hasTransport = true ∧
      (outputPendingList l s).1.resumeCallbackPending = false ∧
      (outputPendingList l s).1.isClosed_ = s.isClosed_ ∧
      (outputPendingList l s).1.hasKeepaliveTimer = s.hasKeepaliveTimer ∧
      (outputPendingList l s).1.hasConnectionEvents = s.hasConnectionEvents := by
  induction l with
  | nil =>
    intro s htr hres
    simp [outputPendingList, htr, hres]
  | cons g rest ih =>
    intro s htr hres
    simp only [outputPendingList, outputFrameOrEnqueue_sent g s htr hres]
    by_cases hr : s.isResumable_ = true
    · rw [if_pos hr]
      have hrec := ih { s with rm := s.rm.trackSentFrame g } htr hres
      simpa using hrec
    · rw [if_neg hr]
      have hrec := ih s htr hres
      simpa using hrec

lemma outputFrameOrEnqueue_snd (f : Frame) (s : StateMachine) :
    (outputFrameOrEnqueue f s).2 = [Event.sentFrame f] ∨
    (outputFrameOrEnqueue f s).2 = [] := by
  unfold outputFrameOrEnqueue outputFrame
  split
  · left
    rfl
  · right
    rfl

lemma closeStreamsAux_no_onResumeOk (sig : StreamCompletionSignal)
    (l : List Nat) (rm : ResumeManager) :
    Event.onResumeOk ∉ (closeStreamsAux sig l rm).2 := by
  induction l generalizing rm with
  | nil => simp [closeStreamsAux]
  | cons sid rest ih =>
    simp only [closeStreamsAux]
    intro hmem
    rcases List.mem_append.1 hmem with h | h
    · simp [endStreamEvents] at h
    · exact ih _ h

lemma closeFrameTransport_no_onResumeOk (sig : StreamCompletionSignal)
    (s : StateMachine) :
    Event.onResumeOk ∉ (closeFrameTransport sig s).2 := by
  simp only [closeFrameTransport]
  split_ifs <;> simp

lemma close_no_onResumeOk (e : Bool) (sig : StreamCompletionSignal)
    (s : StateMachine) : Event.onResumeOk ∉ (close e sig s).2 := by
  unfold close
  split
  · simp
  · dsimp only
    intro hmem
    rcases List.mem_append.1 hmem with h | h
    · rcases List.mem_append.1 h with h2 | h2
      · rcases List.mem_append.1 h2 with h3 | h3
        · split at h3 <;> simp_all
        · split at h3 <;> simp_all
      · exact closeStreamsAux_no_onResumeOk _ _ _
          (by simpa [closeStreams] using h2)
    · exact closeFrameTransport_no_onResumeOk _ _ h

lemma closeWithError_no_onResumeOk (err : Frame) (s : StateMachine) :
    Event.onResumeOk ∉ (closeWithError err s).2 := by
  unfold closeWithError
  dsimp only
  intro hmem
  rcases List.mem_append.1 hmem with h | h
  · split at h
    · rcases outputFrameOrEnqueue_snd err s with hcase | hcase <;>
        rw [hcase] at h <;> simp at h
    · simp at h
  · exact close_no_onResumeOk _ _ _ h

lemma resumeFromPosition_props (pos : Nat) (t : StateMachine)
    (htr : t.hasTransport = true) (hres : t.resumeCallbackPending = false)
    (hkt : t.hasKeepaliveTimer = true) :
    (resumeFromPosition pos t).1.isClosed_ = t.isClosed_ ∧
    (resumeFromPosition pos t).1.resumeCallbackPending = false ∧
    (resumeFromPosition pos t).1.pendingOutput = [] ∧
    (resumeFromPosition pos t).1.keepaliveRunning = true ∧
    Event.replayedFromPosition pos ∈ (resumeFromPosition pos t).2 ∧
    Event.keepaliveStarted ∈ (resumeFromPosition pos t).2 ∧
    ∀ g ∈ t.pendingOutput, Event.sentFrame g ∈ (resumeFromPosition pos t).2 := by
  have hrun := outputPendingList_sends t.pendingOutput
    { t with pendingOutput := [] } htr hres
  obtain ⟨he, hp, ht2, hr2, hc2, hk2, hce2⟩ := hrun
  unfold resumeFromPosition
  dsimp only
  have hstarted :
      (!(isDisconnectedOrClosed
          (outputPendingList t.pendingOutput { t with pendingOutput := [] }).1) &&
        (outputPendingList t.pendingOutput
          { t with pendingOutput := [] }).1.hasKeepaliveTimer) = true := by
    unfold isDisconnectedOrClosed
    rw [ht2, hk2]
    simp [hkt]
  rw [if_pos hstarted, if_pos hstarted]
  refine ⟨by simpa using hc2, by simpa using hr2, by simpa using hp, rfl,
    ?_, ?_, ?_⟩
  · simp
  · simp
  · intro g hg
    simp only [List.mem_append]
    left
    right
    rw [he]
    exact List.mem_map_of_mem Event.sentFrame hg

/-- Claim C4: an inbound RESUME_OK is accepted exactly when a resume callback
is pending and the resume cache reports the frame position available; then
on_resume_ok fires, the pending output frames are replayed and the keepalive
timer restarts; in every other case the connection closes with a connection
error and on_resume_ok never fires. -/
theorem c4_resume_ok_handling (s : StateMachine) (f : Frame)
    (hnc : s.isClosed_ = false) (hser : s.hasSerializer = true)
    (htr : s.hasTransport = true) (hkt : s.hasKeepaliveTimer = true)
    (hk : f.kind = FrameType.RESUME_OK) (hsid : f.streamId = some 0) :
    (s.resumeCallbackPending = true →
      s.rm.isPositionAvailable f.position = true →
      (processFrameImpl f s).1.isClosed_ = false ∧
      (processFrameImpl f s).1.resumeCallbackPending = false ∧
      Event.onResumeOk ∈ (processFrameImpl f s).2 ∧
      Event.replayedFromPosition f.position ∈ (processFrameImpl f s).2 ∧
      (∀ g ∈ s.pendingOutput, Event.sentFrame g ∈ (processFrameImpl f s).2) ∧
      (processFrameImpl f s).1.pendingOutput = [] ∧
      Event.keepaliveStarted ∈ (processFrameImpl f s).2 ∧
      (processFrameImpl f s).1.keepaliveRunning = true) ∧
    (¬(s.resumeCallbackPending = true ∧
        s.rm.isPositionAvailable f.position = true) →
      (processFrameImpl f s).1.isClosed_ = true ∧
      Event.onResumeOk ∉ (processFrameImpl f s).2) := by
  constructor
  · intro hpend hava
    have hred : processFrameImpl f s =
        ((resumeFromPosition f.position
            { s with hasSerializer := true, resumeCallbackPending := false }).1,
         Event.onResumeOk ::
          (resumeFromPosition f.position
            { s with hasSerializer := true, resumeCallbackPending := false }).2) := by
      simp [processFrameImpl, isClosed, hnc, hser, hsid, hk,
        handleConnectionFrame, hpend, hava, ResumeManager.trackReceivedFrame,
        isResumableKind]
    have hprops := resumeFromPosition_props f.position
      { s with hasSerializer := true, resumeCallbackPending := false }
      htr rfl hkt
    rw [hred]
    refine ⟨by rw [hprops.1]; exact hnc, hprops.2.1, by simp, ?_, ?_, hprops.2.2.1,
      ?_, hprops.2.2.2.1⟩
    · exact List.mem_cons_of_mem _ hprops.2.2.2.2.1
    · intro g hg
      exact List.mem_cons_of_mem _ (hprops.2.2.2.2.2.2 g hg)
    · exact List.mem_cons_of_mem _ hprops.2.2.2.2.2.1
  · intro hnot
    by_cases hpend : s.resumeCallbackPending = true
    · have hava : s.rm.isPositionAvailable f.position = false := by
        rcases Bool.eq_false_or_eq_true (s.rm.isPositionAvailable f.position)
          with h | h
        · exact absurd ⟨hpend, h⟩ hnot
        · exact h
      have hred : processFrameImpl f s =
          closeWithError
            (Frame.connectionError
              "Client cannot resume, server position is not available")
            { s with hasSerializer := true } := by
        simp [processFrameImpl, isClosed, hnc, hser, hsid, hk,
          handleConnectionFrame, hpend, hava, ResumeManager.trackReceivedFrame,
          isResumableKind]
      rw [hred]
      exact ⟨closeWithError_fst_isClosed _ _, closeWithError_no_onResumeOk _ _⟩
    · have hpendF : s.resumeCallbackPending = false := by
        rcases Bool.eq_false_or_eq_true s.resumeCallbackPending with h | h
        · exact absurd h hpend
        · exact h
      have hred : processFrameImpl f s =
          closeWithError
            (Frame.connectionError "Received RESUME_OK while not resuming")
            { s with hasSerializer := true } := by
        simp [processFrameImpl, isClosed, hnc, hser, hsid, hk,
          handleConnectionFrame, hpendF, ResumeManager.trackReceivedFrame,
          isResumableKind]
      rw [hred]
      exact ⟨closeWithError_fst_isClosed _ _, closeWithError_no_onResumeOk _ _⟩

/-- A client awaiting RESUME_OK with one pending output frame. -/
def resumingClient : StateMachine :=
  { mode := Mode.CLIENT, isClosed_ := false, hasTransport := true,
    resumeCallbackPending := true, isResumable_ := true,
    remoteResumeable_ := true, hasSerializer := true, versionMajor := 1,
    versionMinor := 0, streams_ := [1], lastPeerStreamId := 0,
    pendingOutput := [payloadFrame5], rm := rmEmpty, hasKeepaliveTimer := true,
    keepaliveRunning := false, hasConnectionEvents := true }

/-- A concrete inbound RESUME_OK frame at position 0. -/
def resumeOkInbound : Frame :=
  { kind := FrameType.RESUME_OK, streamId := some 0, length := 8,
    respondFlag := false, position := 0, errorCode := ErrorCode.RESERVED_EC,
    message := "", autodetectOk := true }

theorem c4_witness :
    ((processFrameImpl resumeOkInbound resumingClient).1.isClosed_ = false ∧
     Event.onResumeOk ∈ (processFrameImpl resumeOkInbound resumingClient).2 ∧
     Event.sentFrame payloadFrame5 ∈
       (processFrameImpl resumeOkInbound resumingClient).2 ∧
     (processFrameImpl resumeOkInbound resumingClient).1.keepaliveRunning = true) ∧
    (processFrameImpl resumeOkInbound
      { resumingClient with resumeCallbackPending := false }).1.isClosed_ = true := by
  have h1 := (c4_resume_ok_handling resumingClient resumeOkInbound
    rfl rfl rfl rfl rfl rfl).1 rfl rfl
  have h2 := (c4_resume_ok_handling
    { resumingClient with resumeCallbackPending := false } resumeOkInbound
    rfl rfl rfl rfl rfl rfl).2 (by simp)
  refine ⟨⟨h1.1, h1.2.2.1, ?_, h1.2.2.2.2.2.2.2⟩, h2.1⟩
  exact h1.2.2.2.2.1 payloadFrame5 (by simp [resumingClient])

/-- Claim C3 (amended): when a server handles a RESUME whose token is unknown
or whose positions are not available (client position neither the unspecified
sentinel nor at most the implied position, or server position not available in
the resume cache), it sends an ERROR frame with code CONNECTION_ERROR — not
REJECTED_RESUME — and closes the connection; when the token is found and both
positions are acceptable, it sends RESUME_OK carrying its implied position and
classifies each live stream clean or dirty via
is_position_available(peer_pos, stream_id). -/
theorem c3_resume_server_amended (s : StateMachine) (serverPos : Nat)
    (clientPos : Option Nat) (hnc : s.isClosed_ = false)
    (hser : s.hasSerializer = true) (htr : s.hasTransport = true)
    (hres : s.resumeCallbackPending = false) (hkt : s.hasKeepaliveTimer = true)
    (ca : ConnectionAutomaton) (token peerPos : Nat)
    (hsrv : ca.isServer = true) (har : ca.isResumable = true) :
    ((clientPositionExist s clientPos &&
        s.rm.isPositionAvailable serverPos) = false →
      (resumeFromPositionOrClose serverPos clientPos s).2.2 = false ∧
      (resumeFromPositionOrClose serverPos clientPos s).1.isClosed_ = true ∧
      sentFrames (resumeFromPositionOrClose serverPos clientPos s).2.1 =
        [Frame.connectionError
          "Cannot resume server, client position is not available"] ∧
      (Frame.connectionError
        "Cannot resume server, client position is not available").errorCode =
        ErrorCode.CONNECTION_ERROR) ∧
    ((clientPositionExist s clientPos &&
        s.rm.isPositionAvailable serverPos) = true →
      (resumeFromPositionOrClose serverPos clientPos s).2.2 = true ∧
      (resumeFromPositionOrClose serverPos clientPos s).1.isClosed_ = false ∧
      Event.sentFrame (resumeOkFrame s.rm.impliedPos) ∈
        (resumeFromPositionOrClose serverPos clientPos s).2.1 ∧
      (resumeOkFrame s.rm.impliedPos).position = s.rm.impliedPos) ∧
    (ca.knownTokens.lookup token = none →
      CAEvent.sentError ErrorCode.CONNECTION_ERROR "can not resume" ∈
        (CAhandleResume token peerPos ca).2 ∧
      CAEvent.closed ∈ (CAhandleResume token peerPos ca).2) ∧
    (∀ st, ca.knownTokens.lookup token = some st →
      CAhandleResume token peerPos ca =
        ({ ca with streamState := st },
         CAEvent.sentResumeOk st.impliedPos ::
          st.streams.map fun sid =>
            if st.resumeCache.isPositionAvailableFor peerPos sid = true then
              CAEvent.cleanResume sid
            else CAEvent.dirtyResume sid)) := by
  refine ⟨?_, ?_, ?_, ?_⟩
  · intro hcond
    have hred : resumeFromPositionOrClose serverPos clientPos s =
        ((closeWithError
            (Frame.connectionError
              "Cannot resume server, client position is not available") s).1,
         (closeWithError
            (Frame.connectionError
              "Cannot resume server, client position is not available") s).2,
         false) := by
      simp [resumeFromPositionOrClose, hcond]
    rw [hred]
    exact ⟨rfl, closeWithError_fst_isClosed _ _,
      closeWithError_sentFrames _ _ hser htr hres, rfl⟩
  · intro hcond
    have hred : resumeFromPositionOrClose serverPos clientPos s =
        ((resumeFromPosition serverPos s).1,
         Event.sentFrame (resumeOkFrame s.rm.impliedPos) ::
          (resumeFromPosition serverPos s).2,
         true) := by
      simp [resumeFromPositionOrClose, hcond]
    have hprops := resumeFromPosition_props serverPos s htr hres hkt
    rw [hred]
    refine ⟨rfl, ?_, by simp, rfl⟩
    rw [hprops.1]
    exact hnc
  · intro hnone
    have hred : CAhandleResume token peerPos ca =
        CAcloseWithError ErrorCode.CONNECTION_ERROR "can not resume" ca := by
      simp [CAhandleResume, hsrv, har, hnone]
    rw [hred]
    unfold CAcloseWithError
    dsimp only
    exact ⟨by simp, by simp⟩
  · intro st hst
    simp [CAhandleResume, hsrv, har, hst]

/-- A connected server whose resume cache is empty and that has no live
streams, so that server position 5 is not available. -/
def rejectingServer : StateMachine :=
  { connectedServer with streams_ := [] }

/-- Counterexample to claim C3 as stated: a server that cannot satisfy the
requested resume positions rejects the RESUME, but the ERROR frame it sends
carries ErrorCode CONNECTION_ERROR, not REJECTED_RESUME. -/
theorem c3_counterexample :
    (resumeFromPositionOrClose 5 (some 0) rejectingServer).2.2 = false ∧
    sentFrames (resumeFromPositionOrClose 5 (some 0) rejectingServer).2.1 =
      [Frame.connectionError
        "Cannot resume server, client position is not available"] ∧
    ∀ g ∈ sentFrames (resumeFromPositionOrClose 5 (some 0) rejectingServer).2.1,
      g.errorCode = ErrorCode.CONNECTION_ERROR ∧
      g.errorCode ≠ ErrorCode.REJECTED_RESUME := by
  decide

/-- A server-side ConnectionAutomaton knowing the resume token 7, whose stored
stream state has one live stream and implied position 42. -/
def caServer : ConnectionAutomaton :=
  { isServer := true, isResumable := true, hasTransport := true,
    streamState :=
      { streams := [], resumeCache := { sentLog := [], firstPos := 0 },
        impliedPos := 0 },
    knownTokens :=
      [(7, { streams := [3], resumeCache := { sentLog := [], firstPos := 0 },
             impliedPos := 42 })] }

theorem c3_witness :
    sentFrames (resumeFromPositionOrClose 5 (some 0) rejectingServer).2.1 =
      [Frame.connectionError
        "Cannot resume server, client position is not available"] ∧
    ((resumeFromPositionOrClose 0 none connectedServer).2.2 = true ∧
     Event.sentFrame (resumeOkFrame connectedServer.rm.impliedPos) ∈
       (resumeFromPositionOrClose 0 none connectedServer).2.1) ∧
    CAEvent.sentError ErrorCode.CONNECTION_ERROR "can not resume" ∈
      (CAhandleResume 9 0 caServer).2 ∧
    CAEvent.cleanResume 3 ∈ (CAhandleResume 7 0 caServer).2 := by
  have hA := c3_resume_server_amended rejectingServer 5 (some 0)
    rfl rfl rfl rfl rfl caServer 9 0 rfl rfl
  have hB := c3_resume_server_amended connectedServer 0 none
    rfl rfl rfl rfl rfl caServer 7 0 rfl rfl
  have hsome := hB.2.2.2
    { streams := [3], resumeCache := { sentLog := [], firstPos := 0 },
      impliedPos := 42 } rfl
  refine ⟨(hA.1 (by decide)).2.2.1, ?_, (hA.2.2.1 rfl).1, ?_⟩
  · have hacc := hB.2.1 (by decide)
    exact ⟨hacc.1, hacc.2.2.1⟩
  · rw [hsome]
    decide

lemma registerNewPeerStreamId_reject (sid : Nat) (s : StateMachine)
    (h : (registerNewPeerStreamId sid s).1 = false) :
    (registerNewPeerStreamId sid s).2 = s := by
  by_cases hA : sid % 2 =
      (match s.mode with | Mode.CLIENT => 1 | Mode.SERVER => 0)
  · simp [registerNewPeerStreamId, hA]
  · by_cases hB : sid ≤ s.lastPeerStreamId
    · simp [registerNewPeerStreamId, hA, hB]
    · exfalso
      simp [registerNewPeerStreamId, hA, hB] at h

lemma update_processed_self (s : StateMachine) (hnc : s.isClosed_ = false)
    (hser : s.hasSerializer = true) (hres : s.resumeCallbackPending = false) :
    ({ s with
        isClosed_ := false
        resumeCallbackPending := false
        hasSerializer := true } : StateMachine) = s := by
  cases s
  simp_all

/-- Claim C7 (amended): for an inbound frame whose kind is unknown: at stream
0 the connection closes with a connection error; at a non-zero stream id that
is in the streams map the frame is ignored and nothing changes; at a non-zero
id not in the map the frame is ignored exactly when peer-stream-id
registration rejects the id (wrong parity or not above the last peer id), and
when the id does register as a new peer stream the connection closes with a
connection error instead of ignoring the frame. -/
theorem c7_unknown_kind_amended (s : StateMachine) (f : Frame) (c sid : Nat)
    (hk : f.kind = FrameType.UNKNOWN c) (hsid : f.streamId = some sid)
    (hnc : s.isClosed_ = false) (hser : s.hasSerializer = true)
    (hres : s.resumeCallbackPending = false) :
    (sid = 0 → (processFrameImpl f s).1.isClosed_ = true) ∧
    (sid ≠ 0 → sid ∈ s.streams_ → processFrameImpl f s = (s, [])) ∧
    (sid ≠ 0 → sid ∉ s.streams_ → versionAboveZero s = true →
      ((registerNewPeerStreamId sid s).1 = false →
        processFrameImpl f s = (s, [])) ∧
      ((registerNewPeerStreamId sid s).1 = true →
        (processFrameImpl f s).1.isClosed_ = true)) := by
  have hs0 : ({ s with hasSerializer := true } : StateMachine) = s :=
    update_hasSerializer_self s hser
  refine ⟨?_, ?_, ?_⟩
  · intro h0
    subst h0
    simp [processFrameImpl, isClosed, hnc, hser, hsid, hk,
      handleConnectionFrame, ResumeManager.trackReceivedFrame,
      isResumableKind, closeWithError_fst_isClosed]
  · intro hnz hmem
    simp [processFrameImpl, isClosed, hnc, hser, hsid, hk, hnz, hres,
      handleStreamFrame, ResumeManager.trackReceivedFrame, isResumableKind,
      hs0, hmem, update_processed_self s hnc hser hres]
  · intro hnz hnmem hv
    have hred : processFrameImpl f s = handleUnknownStream sid f s := by
      simp [processFrameImpl, isClosed, hnc, hser, hsid, hk, hnz, hres,
        handleStreamFrame, ResumeManager.trackReceivedFrame, isResumableKind,
        hs0, hnmem, update_processed_self s hnc hser hres]
    constructor
    · intro hregF
      rw [hred]
      simp [handleUnknownStream, hv, hregF,
        registerNewPeerStreamId_reject sid s hregF]
    · intro hregT
      rw [hred]
      simp [handleUnknownStream, hv, hregT, hk, closeWithError_fst_isClosed]

/-- A concrete frame with an unknown kind value for stream 5. -/
def unknownFrame5 : Frame :=
  { kind := FrameType.UNKNOWN 99, streamId := some 5, length := 10,
    respondFlag := false, position := 0, errorCode := ErrorCode.RESERVED_EC,
    message := "", autodetectOk := true }

/-- Counterexample to claim C7 as stated: on a server with no live streams, an
unknown-kind frame for the fresh peer stream id 5 (odd parity, above the last
peer id, so registration succeeds) is not ignored: the connection closes and
its state changes. -/
theorem c7_counterexample :
    rejectingServer.streams_ = [] ∧
    (processFrameImpl unknownFrame5 rejectingServer).1.isClosed_ = true ∧
    processFrameImpl unknownFrame5 rejectingServer ≠ (rejectingServer, []) := by
  decide

theorem c7_witness :
    (processFrameImpl { unknownFrame5 with streamId := some 0 }
      connectedServer).1.isClosed_ = true ∧
    processFrameImpl { unknownFrame5 with streamId := some 3 }
      connectedServer = (connectedServer, []) ∧
    processFrameImpl { unknownFrame5 with streamId := some 4 }
      connectedServer = (connectedServer, []) ∧
    (processFrameImpl unknownFrame5 rejectingServer).1.isClosed_ = true := by
  have h0 := c7_unknown_kind_amended connectedServer
    { unknownFrame5 with streamId := some 0 } 99 0 rfl rfl rfl rfl rfl
  have h3 := c7_unknown_kind_amended connectedServer
    { unknownFrame5 with streamId := some 3 } 99 3 rfl rfl rfl rfl rfl
  have h4 := c7_unknown_kind_amended connectedServer
    { unknownFrame5 with streamId := some 4 } 99 4 rfl rfl rfl rfl rfl
  have h5 := c7_unknown_kind_amended rejectingServer unknownFrame5 99 5
    rfl rfl rfl rfl rfl
  exact ⟨h0.1 rfl, h3.2.1 (by decide) (by decide),
    (h4.2.2 (by decide) (by decide) rfl).1 (by decide),
    (h5.2.2 (by decide) (by decide) rfl).2 (by decide)⟩

end RSocket
